import Mathlib

/-!
Verification of the deviceremotes repository (microscope hardware wrappers).

The development shallowly embeds the Python modules
src/microscope/lasers/obis.py, src/microscope/mirror/alpao.py,
src/microscope/mirror/bmc.py and src/microscope/testsuite/libs.py.

Serial traffic is modelled by a scripted connection: the list of incoming
lines the device will deliver, consumed one line per read.  Outgoing
writes, reads, and lock acquire/release are recorded as an event trace.
Vendor SDK outcomes (status codes, error-stack contents) are oracle
arguments to the embedded operations.  Python floats are modelled as
rationals, and the float() string conversion by an executable decimal
parser; a conversion failure (Python ValueError) is modelled as none.
-/

/-- Events emitted by the embedded OBIS laser operations: lock acquire,
lock release, a serial write of a command (with an optional numeric
argument carried by the command text), and a serial read of one line. -/
inductive Ev where
  | acq : Ev
  | rel : Ev
  | wr : String → Option Rat → Ev
  | rd : Ev
  deriving DecidableEq

/-- The communication lock of SerialDeviceMixIn, as the spec describes it:
a single reentrant advisory lock per device instance.  A decorated method
brackets the events of its body with acquire and release. -/
def lockWrap (ev : List Ev) : List Ev :=
  Ev.acq :: ev ++ [Ev.rel]

/-- Scans a trace keeping the current lock-hold depth, checking that every
serial write and read happens while the lock is held (depth above zero)
and that every release matches an earlier acquire. -/
def holdsAll : Nat → List Ev → Bool
  | _, [] => true
  | d, Ev.acq :: r => holdsAll (d + 1) r
  | d, Ev.rel :: r => decide (0 < d) && holdsAll (d - 1) r
  | d, Ev.wr _ _ :: r => decide (0 < d) && holdsAll d r
  | d, Ev.rd :: r => decide (0 < d) && holdsAll d r

/-- True when a trace consists of serial writes and reads only. -/
def serialOnly : List Ev → Bool
  | [] => true
  | Ev.wr _ _ :: r => serialOnly r
  | Ev.rd :: r => serialOnly r
  | _ => false

/-- The command names of the write events of a trace, in order. -/
def writesOf (l : List Ev) : List String :=
  l.filterMap (fun e => match e with | Ev.wr c _ => some c | _ => none)

/-- The characters the Python bytes strip method removes: space, tab,
newline, carriage return, vertical tab and form feed. -/
def pyIsSpace (c : Char) : Bool :=
  c = ' ' || c = '\t' || c = '\n' || c = '\r' || c.toNat = 11 || c.toNat = 12

/-- The Python strip method without arguments: remove leading and
trailing whitespace. -/
def pyStrip (s : String) : String :=
  ⟨((s.data.dropWhile pyIsSpace).reverse.dropWhile pyIsSpace).reverse⟩

/-- The Python slice taking the first n characters of a string. -/
def pyPrefix (n : Nat) (s : String) : String :=
  ⟨s.data.take n⟩

/-- Numeric value of a list of decimal digit characters. -/
def natOfDigits (l : List Char) : Nat :=
  l.foldl (fun a c => a * 10 + (c.toNat - 48)) 0

/-- True when every character of the list is a decimal digit. -/
def allDigits (l : List Char) : Bool :=
  l.all Char.isDigit

/-- Mantissa and exponent of an unsigned decimal literal, as accepted by
the Python float() conversion (digits, optional fraction after a dot,
optional exponent part).  Returns none on any malformed input, which
models the Python ValueError. -/
def pyFloatCore (l : List Char) : Option Rat :=
  let mant := l.takeWhile (fun c => c ≠ 'e' && c ≠ 'E')
  let rest := l.dropWhile (fun c => c ≠ 'e' && c ≠ 'E')
  let expVal : Option Int :=
    match rest with
    | [] => some 0
    | _ :: es =>
      match es with
      | '-' :: t => if t ≠ [] ∧ allDigits t then some (-(natOfDigits t : Int)) else none
      | '+' :: t => if t ≠ [] ∧ allDigits t then some (natOfDigits t : Int) else none
      | t => if t ≠ [] ∧ allDigits t then some (natOfDigits t : Int) else none
  let mantVal : Option Rat :=
    let ip := mant.takeWhile Char.isDigit
    let fp := mant.dropWhile Char.isDigit
    match fp with
    | [] => if ip ≠ [] then some ((natOfDigits ip : Rat)) else none
    | '.' :: fr =>
      if allDigits fr ∧ (ip ≠ [] ∨ fr ≠ []) then
        some ((natOfDigits ip : Rat) + (natOfDigits fr : Rat) / ((10 : Rat) ^ fr.length))
      else none
    | _ => none
  match mantVal, expVal with
  | some m, some e => some (m * (10 : Rat) ^ e)
  | _, _ => none

/-- The Python float() conversion of a string, modelled over rationals:
optional surrounding whitespace and sign, then a decimal literal.
Infinities and NaN are not modelled. -/
def pyFloat (s : String) : Option Rat :=
  match (pyStrip s).data with
  | '-' :: t => (pyFloatCore t).map (fun x => -x)
  | '+' :: t => pyFloatCore t
  | t => pyFloatCore t

/-- State of an ObisLaser instance: the two scalar calibration values
set by the constructor (in mW), and the scripted serial connection, the
list of lines the device will deliver to successive reads. -/
structure ObisState where
  minPower : Rat
  maxPower : Rat
  conn : List String
  deriving DecidableEq

/-- One pyserial readline call on the scripted connection: delivers the
next line (the empty string models a timeout on an exhausted script) and
records a read event. -/
def serialRead (s : ObisState) : String × ObisState × List Ev :=
  (s.conn.headD "", { s with conn := s.conn.tail }, [Ev.rd])

/-- ObisLaser._readline (obis.py lines 86 to 104): read one line and strip
surrounding whitespace; a plain OK handshake or a response whose first
three characters are ERR is returned at once, otherwise one further line,
the trailing handshake, is read and discarded (it is only inspected for
logging) before the stripped response is returned. -/
def obis_readline (s : ObisState) : String × ObisState × List Ev :=
  let r := serialRead s
  let response := pyStrip r.1
  if response = "OK" then (response, r.2.1, r.2.2)
  else if pyPrefix 3 response = "ERR" then (response, r.2.1, r.2.2)
  else
    let h := serialRead r.2.1
    (response, h.2.1, r.2.2 ++ h.2.2)

/-- A write of one command followed by ObisLaser._readline, the exchange
pattern used throughout obis.py.  Writing does not consume script lines;
it records a write event carrying the command and its optional numeric
argument. -/
def obis_write_read (cmd : String) (arg : Option Rat) (s : ObisState) :
    String × ObisState × List Ev :=
  let r := obis_readline s
  (r.1, r.2.1, Ev.wr cmd arg :: r.2.2)

/-- The SerialDeviceMixIn.lock_comms decorator.  Modelled from the spec:
the decorated body runs while the single per-instance communication lock
is held, so its events are bracketed by acquire and release. -/
def lock_comms {α : Type} (f : ObisState → α × ObisState × List Ev)
    (s : ObisState) : α × ObisState × List Ev :=
  let r := f s
  (r.1, r.2.1, lockWrap r.2.2)

/-- Body of ObisLaser.get_is_on: query the emission state and compare the
stripped response with the literal ON. -/
def obis_get_is_on_body (s : ObisState) : Bool × ObisState × List Ev :=
  let r := obis_write_read "SOURce:AM:STATe?" none s
  (r.1 = "ON", r.2.1, r.2.2)

/-- ObisLaser.get_is_on, decorated with lock_comms. -/
def obis_get_is_on : ObisState → Bool × ObisState × List Ev :=
  lock_comms obis_get_is_on_body

/-- The command and label pairs iterated by ObisLaser.get_status. -/
def statusCmds : List (String × String) :=
  [("SOURce:AM:STATe?", "Emission on?"),
   ("SOURce:POWer:LEVel:IMMediate:AMPLitude?", "Target power:"),
   ("SOURce:POWer:LEVel?", "Measured power:"),
   ("SYSTem:STATus?", "Status code?"),
   ("SYSTem:FAULt?", "Fault code?"),
   ("SYSTem:HOURs?", "Head operating hours:")]

/-- The loop of ObisLaser.get_status: for each command and label, write
the command, read the reply, and collect label, space and reply. -/
def runStatus : List (String × String) → ObisState →
    List String × ObisState × List Ev
  | [], s => ([], s, [])
  | (cmd, msg) :: rest, s =>
    let r := obis_write_read cmd none s
    let r2 := runStatus rest r.2.1
    ((msg ++ " " ++ r.1) :: r2.1, r2.2.1, r.2.2 ++ r2.2.2)

/-- Body of ObisLaser.get_status. -/
def obis_get_status_body (s : ObisState) : List String × ObisState × List Ev :=
  runStatus statusCmds s

/-- ObisLaser.get_status, decorated with lock_comms. -/
def obis_get_status : ObisState → List String × ObisState × List Ev :=
  lock_comms obis_get_status_body

/-- Body of ObisLaser.enable: three commands to leave sleep mode and turn
emission on, then a check through the decorated get_is_on; on failure the
current status is fetched (and logged) and False is returned. -/
def obis_enable_body (s : ObisState) : Bool × ObisState × List Ev :=
  let r1 := obis_write_read "SOURce:TEMPerature:APRobe ON" none s
  let r2 := obis_write_read "SOURce:AM:STATe ON" none r1.2.1
  let r3 := obis_write_read "SOURce:AM:EXTernal DIGital" none r2.2.1
  let r4 := obis_get_is_on r3.2.1
  if r4.1 then (true, r4.2.1, r1.2.2 ++ r2.2.2 ++ r3.2.2 ++ r4.2.2)
  else
    let r5 := obis_get_status r4.2.1
    (false, r5.2.1, r1.2.2 ++ r2.2.2 ++ r3.2.2 ++ r4.2.2 ++ r5.2.2)

/-- ObisLaser.enable, decorated with lock_comms. -/
def obis_enable : ObisState → Bool × ObisState × List Ev :=
  lock_comms obis_enable_body

/-- Body of ObisLaser.disable: turn emission off, then check through the
decorated get_is_on; on failure the current status is fetched and False
is returned. -/
def obis_disable_body (s : ObisState) : Bool × ObisState × List Ev :=
  let r1 := obis_write_read "SOURce:AM:STATe OFF" none s
  let r2 := obis_get_is_on r1.2.1
  if r2.1 then
    let r3 := obis_get_status r2.2.1
    (false, r3.2.1, r1.2.2 ++ r2.2.2 ++ r3.2.2)
  else (true, r2.2.1, r1.2.2 ++ r2.2.2)

/-- ObisLaser.disable, decorated with lock_comms. -/
def obis_disable : ObisState → Bool × ObisState × List Ev :=
  lock_comms obis_disable_body

/-- Body of ObisLaser.is_alive: delegates to the decorated get_is_on. -/
def obis_is_alive_body (s : ObisState) : Bool × ObisState × List Ev :=
  obis_get_is_on s

/-- ObisLaser.is_alive, decorated with lock_comms. -/
def obis_is_alive : ObisState → Bool × ObisState × List Ev :=
  lock_comms obis_is_alive_body

/-- Body of ObisLaser.get_min_power_mw: query the low power limit and
convert the reply from watts to milliwatts. -/
def obis_get_min_power_mw_body (s : ObisState) :
    Option Rat × ObisState × List Ev :=
  let r := obis_write_read "SOURce:POWer:LIMit:LOW?" none s
  ((pyFloat r.1).map (fun x => x * 1000), r.2.1, r.2.2)

/-- ObisLaser.get_min_power_mw, decorated with lock_comms. -/
def obis_get_min_power_mw : ObisState → Option Rat × ObisState × List Ev :=
  lock_comms obis_get_min_power_mw_body

/-- Body of ObisLaser.get_max_power_mw: query the high power limit and
convert the reply from watts to milliwatts. -/
def obis_get_max_power_mw_body (s : ObisState) :
    Option Rat × ObisState × List Ev :=
  let r := obis_write_read "SOURce:POWer:LIMit:HIGH?" none s
  ((pyFloat r.1).map (fun x => x * 1000), r.2.1, r.2.2)

/-- ObisLaser.get_max_power_mw, decorated with lock_comms. -/
def obis_get_max_power_mw : ObisState → Option Rat × ObisState × List Ev :=
  lock_comms obis_get_max_power_mw_body

/-- Body of the private ObisLaser._get_power_mw: zero when the laser is
off (per the decorated get_is_on), otherwise the measured power level
converted from watts to milliwatts. -/
def obis_get_power_mw_priv_body (s : ObisState) :
    Option Rat × ObisState × List Ev :=
  let r := obis_get_is_on s
  if !r.1 then (some 0, r.2.1, r.2.2)
  else
    let r2 := obis_write_read "SOURce:POWer:LEVel?" none r.2.1
    ((pyFloat r2.1).map (fun x => x * 1000), r2.2.1, r.2.2 ++ r2.2.2)

/-- ObisLaser._get_power_mw, decorated with lock_comms. -/
def obis_get_power_mw_priv : ObisState → Option Rat × ObisState × List Ev :=
  lock_comms obis_get_power_mw_priv_body

/-- ObisLaser.get_power_mw (obis.py lines 196 to 199), not decorated:
zero when the laser is off, otherwise delegates to the decorated
private _get_power_mw. -/
def obis_get_power_mw (s : ObisState) : Option Rat × ObisState × List Ev :=
  let r := obis_get_is_on s
  if !r.1 then (some 0, r.2.1, r.2.2)
  else
    let r2 := obis_get_power_mw_priv r.2.1
    (r2.1, r2.2.1, r.2.2 ++ r2.2.2)

/-- Body of ObisLaser._set_power_mw (obis.py lines 201 to 210): a request
above the cached maximum power returns at once without writing anything;
otherwise the amplitude command is written with the value converted to
watts (the Python code formats it with five decimals; the model carries
the exact rational) and the reply line is read.  The Python None result
is modelled as none. -/
def obis_set_power_mw_body (mW : Rat) (s : ObisState) :
    Option String × ObisState × List Ev :=
  if mW > s.maxPower then (none, s, [])
  else
    let r := obis_write_read "SOURce:POWer:LEVel:IMMediate:AMPLitude"
               (some (mW / 1000)) s
    (some r.1, r.2.1, r.2.2)

/-- ObisLaser._set_power_mw, decorated with lock_comms. -/
def obis_set_power_mw (mW : Rat) : ObisState → Option String × ObisState × List Ev :=
  lock_comms (obis_set_power_mw_body mW)

/-- The eight informational commands the ObisLaser constructor sends
before reading the two power calibration values. -/
def obisInitCmds : List String :=
  ["SYSTem:COMMunicate:HANDshaking ON",
   "SOURce:AM:STATe?",
   "SYSTem:INFormation:MODel?",
   "SYSTem:INFormation:SNUMber?",
   "SYSTem:CDRH?",
   "SOURce:TEMPerature:APRobe?",
   "*TST?",
   "SYSTem:AUTostart?"]

/-- Sequential write and read exchanges whose replies are only logged. -/
def runCmds : List String → ObisState → ObisState × List Ev
  | [], s => (s, [])
  | c :: rest, s =>
    let r := obis_write_read c none s
    let r2 := runCmds rest r.2.1
    (r2.1, r.2.2 ++ r2.2)

/-- ObisLaser constructor (obis.py lines 32 to 75): eight informational
exchanges, then the maximum power (SYSTem INFormation POWer) and the
low power limit, each converted from watts to milliwatts and stored in
the two calibration fields.  A float conversion failure aborts the
constructor, modelled as none; as in the source, the minimum is not read
when the maximum fails to convert. -/
def obis_init (conn : List String) : Option (ObisState × List Ev) :=
  let s0 : ObisState := { minPower := 0, maxPower := 0, conn := conn }
  let r1 := runCmds obisInitCmds s0
  let rMax := obis_write_read "SYSTem:INFormation:POWer?" none r1.1
  match pyFloat rMax.1 with
  | none => none
  | some mx =>
    let rMin := obis_write_read "SOURce:POWer:LIMit:LOW?" none rMax.2.1
    match pyFloat rMin.1 with
    | none => none
    | some mn =>
      some ({ rMin.2.1 with maxPower := mx * 1000, minPower := mn * 1000 },
            r1.2 ++ rMax.2.2 ++ rMin.2.2)

/-- Modelled from the spec: the asdk wrapper module (microscope._wrappers,
not under src) exposes the vendor SUCCESS status; only the distinction
between SUCCESS and any other status matters to the embedded code. -/
def asdkSUCCESS : Int := 0

/-- Modelled from the spec: the asdk wrapper FAILURE status, some status
different from SUCCESS. -/
def asdkFAILURE : Int := -1

/-- AlpaoDeformableMirror._err_msg_len: the length of the buffer handed to
the SDK for error messages. -/
def alpaoErrMsgLen : Nat := 64

/-- AlpaoDeformableMirror._find_error_str (alpao.py lines 53 to 78).  The
outcome of the asdkGetLastError call is an oracle: its status, the text
it leaves in the message buffer, and the numeric error code.  When the
call fails, the empty Python str is returned.  When it succeeds, msg is
the bytes value of the buffer, and line 75 concatenates a str onto it
(msg += "(error %i)" formatted with the code), which raises TypeError
under Python 3; the overflow branch of line 74, dead because the buffer
value is capped at the buffer length, would raise the same way.  So the
composed message is never produced: the error result carries the text of
the propagating TypeError instead. -/
def find_error_str (gls : Int) (buf : String) (ec : Int) : Except String String :=
  if gls = asdkSUCCESS then
    .error "TypeError: can\x27t concat str to bytes"
  else .ok ""

/-- An exception leaving AlpaoDeformableMirror._raise_if_error: either
the TypeError escaping _find_error_str, or the exception_cls call
carrying a fetched SDK error string. -/
inductive AlpaoRaise where
  | typeError : String → AlpaoRaise
  | sdkError : String → AlpaoRaise
  deriving DecidableEq

/-- The message text of an exception leaving _raise_if_error. -/
def AlpaoRaise.pyMsg : AlpaoRaise → String
  | .typeError m => m
  | .sdkError m => m

/-- AlpaoDeformableMirror._raise_if_error (alpao.py lines 80 to 84): on a
status different from SUCCESS, fetch the error string; a TypeError
escaping the fetch propagates; a returned string is raised wrapped in
exception_cls only when it is nonempty.  Since the fetch either raises
or returns the empty string, the sdkError outcome is unreachable. -/
def raise_if_error (status gls : Int) (buf : String) (ec : Int) :
    Option AlpaoRaise :=
  if status ≠ asdkSUCCESS then
    match find_error_str gls buf ec with
    | .error e => some (.typeError e)
    | .ok msg => if msg ≠ "" then some (.sdkError msg) else none
  else none

/-- True when _raise_if_error raises an exception_cls exception carrying
a fetched SDK error string on the given oracle outcome. -/
def raisesSdkErrorString (status gls : Int) (buf : String) (ec : Int) : Bool :=
  match raise_if_error status gls buf ec with
  | some (AlpaoRaise.sdkError _) => true
  | _ => false

/-- Modelled from the spec: the TriggerType enumeration of
microscope.devices (not under src).  The three members mapped by the
Alpao driver, plus PULSE standing for the remaining members. -/
inductive TriggerType where
  | SOFTWARE : TriggerType
  | RISING_EDGE : TriggerType
  | FALLING_EDGE : TriggerType
  | PULSE : TriggerType
  deriving DecidableEq

/-- The name attribute of a TriggerType member, used in error messages. -/
def TriggerType.tname : TriggerType → String
  | .SOFTWARE => "SOFTWARE"
  | .RISING_EDGE => "RISING_EDGE"
  | .FALLING_EDGE => "FALLING_EDGE"
  | .PULSE => "PULSE"

/-- The _TriggerType_to_asdkTriggerIn dictionary (alpao.py lines 47 to
51); a missing key (Python KeyError) is none. -/
def triggerToAsdk : TriggerType → Option Int
  | .SOFTWARE => some 0
  | .RISING_EDGE => some 1
  | .FALLING_EDGE => some 2
  | .PULSE => none

/-- State of an AlpaoDeformableMirror instance: the actuator count read
once by the constructor, the current trigger type (from the trigger
mix-in), and the patterns stored for software triggering. -/
structure AlpaoState where
  nActuators : Int
  triggerType : TriggerType
  queued : List (List Rat)
  deriving DecidableEq

/-- Python int() truncation toward zero of a rational. -/
def pyInt (x : Rat) : Int :=
  if 0 ≤ x then x.floor else -((-x).floor)

/-- AlpaoDeformableMirror.__init__ (alpao.py lines 87 to 113): fail when
asdkInit returned a null pointer; then check the error stack with the
FAILURE status; then read NbOfActuator through asdkGet, check its status,
and store the truncated value.  SDK outcomes are oracle arguments; the
initial trigger type comes from the trigger mix-in. -/
def alpaoInit (dmNull : Bool) (gls1 : Int) (buf1 : String) (ec1 : Int)
    (getStatus gls2 : Int) (buf2 : String) (ec2 : Int) (nb : Rat)
    (t0 : TriggerType) : Except String AlpaoState :=
  if dmNull then .error "Failed to initialise connection: don\x27t know why"
  else
    match raise_if_error asdkFAILURE gls1 buf1 ec1 with
    | some ex => .error ex.pyMsg
    | none =>
      match raise_if_error getStatus gls2 buf2 ec2 with
      | some ex => .error ex.pyMsg
      | none =>
        .ok { nActuators := pyInt nb, triggerType := t0, queued := [] }

/-- The module level _normalize_patterns function body (alpao.py lines 35
to 39): every actuator value is rescaled from the interface range zero to
one onto the SDK range minus one to one. -/
def alpao_normalize (patterns : List Rat) : List Rat :=
  patterns.map (fun x => x * 2 - 1)

/-- AlpaoDeformableMirror.apply_pattern (alpao.py lines 115 to 120) as the
code actually behaves: after validation (an oracle, since the validator
lives in the missing devices module) the call
_normalize_patterns(pattern) passes a single argument to a module level
function whose signature is (self, patterns), so Python raises TypeError
before asdk.Send can be reached.  The last component lists the SDK calls
made, which is always empty. -/
def alpao_apply_pattern (patternValid : Bool) (st : AlpaoState) :
    Except String Unit × AlpaoState × List String :=
  if patternValid then
    (.error "TypeError: _normalize_patterns() missing 1 required positional argument: \x27patterns\x27",
     st, [])
  else (.error "pattern validation failed", st, [])

/-- AlpaoDeformableMirror.set_trigger_type (alpao.py lines 122 to 129):
look the trigger type up in the dictionary; a missing key raises naming
the type, before any SDK call; otherwise asdk.Set is called with the
TriggerIn key and the mapped value (the calls are listed in the last
component) and its status is checked. -/
def alpao_set_trigger_type (t : TriggerType) (setStatus gls : Int)
    (buf : String) (ec : Int) (st : AlpaoState) :
    Except String Unit × AlpaoState × List (String × Int) :=
  match triggerToAsdk t with
  | none =>
    (.error ("unsupported trigger of type \x27" ++ t.tname ++ "\x27 for Alpao Mirrors"),
     st, [])
  | some v =>
    match raise_if_error setStatus gls buf ec with
    | some ex => (.error ex.pyMsg, st, [("TriggerIn", v)])
    | none => (.ok (), st, [("TriggerIn", v)])

/-- AlpaoDeformableMirror.queue_patterns (alpao.py lines 131 to 148).
With a software trigger the patterns are handed to the base class
(modelled from the spec: the base implementation stores them for later
software triggering).  Otherwise the patterns are validated and sent with
asdkSendPattern, whose status is checked.  The source line of that call
is missing a comma between its second and third arguments, a syntax
error; the embedding records the intended call. -/
def alpao_queue_patterns (patterns : List (List Rat)) (patternValid : Bool)
    (sendStatus gls : Int) (buf : String) (ec : Int) (st : AlpaoState) :
    Except String Unit × AlpaoState :=
  if st.triggerType = TriggerType.SOFTWARE then
    (.ok (), { st with queued := patterns })
  else if patternValid then
    match raise_if_error sendStatus gls buf ec with
    | some ex => (.error ex.pyMsg, st)
    | none => (.ok (), st)
  else (.error "pattern validation failed", st)

/-- AlpaoDeformableMirror.zero (alpao.py lines 156 to 158): asdkReset then
a status check. -/
def alpao_zero (resetStatus gls : Int) (buf : String) (ec : Int)
    (st : AlpaoState) : Except String Unit × AlpaoState :=
  match raise_if_error resetStatus gls buf ec with
  | some ex => (.error ex.pyMsg, st)
  | none => (.ok (), st)

/-- BMCDeformableMirror.apply_pattern (bmc.py lines 45 to 50) as the code
actually behaves: after validation (an oracle) the next line reads
values.ctypes, but no name values is bound anywhere in the module (the
parameter is pattern, and the import of the BMC wrapper is commented
out), so Python raises NameError and BMC.SetArray is never called. -/
def bmc_apply_pattern (patternValid : Bool) : Except String Unit :=
  if patternValid then .error "NameError: name \x27values\x27 is not defined"
  else .error "pattern validation failed"

/-- MockFuncPtr (libs.py lines 37 to 42): a stand-in for a C function
pointer, with the two ctypes attributes initialised to None. -/
structure MockFuncPtr where
  argtypes : Option Unit
  restype : Option Unit
  deriving DecidableEq

/-- Calling a MockFuncPtr returns zero. -/
def MockFuncPtr.call (_ : MockFuncPtr) : Int := 0

/-- A freshly constructed MockFuncPtr, as MockSharedLib hands out. -/
def mkMockFuncPtr : MockFuncPtr := { argtypes := none, restype := none }

/-- A MockSharedLib subclass: its class name, the library names it can
stand in for, and the function names it provides. -/
structure MockLib where
  clsName : String
  libs : List String
  fns : List String
  deriving DecidableEq

/-- MockLibasdk (libs.py lines 64 to 76). -/
def mockLibasdk : MockLib :=
  { clsName := "MockLibasdk",
    libs := ["libasdk.so", "ASDK"],
    fns := ["asdkGet", "asdkGetLastError", "asdkInit", "asdkRelease",
            "asdkSend", "asdkSendPattern", "asdkSet"] }

/-- MockLibatcore (libs.py lines 78 to 124). -/
def mockLibatcore : MockLib :=
  { clsName := "MockLibatcore",
    libs := ["atcore.so", "atcore"],
    fns := ["AT_Close", "AT_Command", "AT_FinaliseLibrary", "AT_Flush",
            "AT_GetBool", "AT_GetEnumCount", "AT_GetEnumIndex",
            "AT_GetEnumStringByIndex", "AT_GetEnumerated",
            "AT_GetEnumeratedCount", "AT_GetEnumeratedString",
            "AT_GetFloat", "AT_GetFloatMax", "AT_GetFloatMin",
            "AT_GetInt", "AT_GetIntMax", "AT_GetIntMin", "AT_GetString",
            "AT_GetStringMaxLength", "AT_InitialiseLibrary",
            "AT_IsEnumIndexAvailable", "AT_IsEnumIndexImplemented",
            "AT_IsEnumeratedIndexAvailable",
            "AT_IsEnumeratedIndexImplemented", "AT_IsImplemented",
            "AT_IsReadOnly", "AT_IsReadable", "AT_IsWritable", "AT_Open",
            "AT_QueueBuffer", "AT_RegisterFeatureCallback", "AT_SetBool",
            "AT_SetEnumIndex", "AT_SetEnumString", "AT_SetEnumerated",
            "AT_SetEnumeratedString", "AT_SetFloat", "AT_SetInt",
            "AT_SetString", "AT_UnregisterFeatureCallback",
            "AT_WaitBuffer"] }

/-- MockLibatutility (libs.py lines 126 to 135). -/
def mockLibatutility : MockLib :=
  { clsName := "MockLibatutility",
    libs := ["atutility.so", "atutility"],
    fns := ["AT_ConvertBuffer", "AT_ConvertBufferUsingMetadata",
            "AT_FinaliseUtilityLibrary", "AT_InitialiseUtilityLibrary"] }

/-- MockLibBMC (libs.py lines 137 to 149). -/
def mockLibBMC : MockLib :=
  { clsName := "MockLibBMC",
    libs := ["libBMC.so.3", "BMC"],
    fns := ["BMCClose", "BMCConfigureLog", "BMCErrorString", "BMCGetArray",
            "BMCOpen", "BMCSetArray", "BMCVersionString"] }

/-- MockLibpvcam (libs.py lines 151 to 193). -/
def mockLibpvcam : MockLib :=
  { clsName := "MockLibpvcam",
    libs := ["pvcam.so", "pvcam32", "pvcam64"],
    fns := ["pl_cam_close", "pl_cam_deregister_callback", "pl_cam_get_name",
            "pl_cam_get_total", "pl_cam_open", "pl_cam_register_callback",
            "pl_cam_register_callback_ex", "pl_cam_register_callback_ex2",
            "pl_cam_register_callback_ex3", "pl_create_frame_info_struct",
            "pl_create_smart_stream_struct", "pl_enum_str_length",
            "pl_exp_abort", "pl_exp_abort", "pl_exp_check_cont_status",
            "pl_exp_check_cont_status_ex", "pl_exp_check_status",
            "pl_exp_finish_seq", "pl_exp_get_latest_frame",
            "pl_exp_get_latest_frame_ex", "pl_exp_get_oldest_frame",
            "pl_exp_get_oldest_frame_ex", "pl_exp_setup_cont",
            "pl_exp_setup_seq", "pl_exp_start_cont", "pl_exp_start_seq",
            "pl_exp_stop_cont", "pl_exp_unlock_oldest_frame",
            "pl_get_enum_param", "pl_get_param", "pl_pp_reset",
            "pl_pvcam_get_ver", "pl_pvcam_init", "pl_pvcam_uninit",
            "pl_release_frame_info_struct",
            "pl_release_smart_stream_struct", "pl_set_param"] }

/-- The base MockSharedLib class itself (libs.py lines 45 to 61), with
empty libs and functions lists; the module loop over the classes of the
module includes it, where it contributes no library names. -/
def mockSharedLibBase : MockLib :=
  { clsName := "MockSharedLib", libs := [], fns := [] }

/-- The MockSharedLib classes of the module, in the alphabetical order
inspect.getmembers enumerates them (libs.py lines 195 to 201). -/
def allMockLibs : List MockLib :=
  [mockLibBMC, mockLibasdk, mockLibatcore, mockLibatutility,
   mockLibpvcam, mockSharedLibBase]

/-- The _lib_to_mock map: the mock class covering a library name, if any.
The source builds a dictionary; since no library name is listed by two
classes, the first covering class is the covering class. -/
def lib_to_mock (n : String) : Option MockLib :=
  allMockLibs.find? (fun c => c.libs.contains n)

/-- MockSharedLib.__getattr__ (libs.py lines 56 to 61): a name in the
functions list yields a fresh MockFuncPtr; any other name raises
AttributeError, modelled as none.  (Python consults this fallback only
for names not found by ordinary attribute lookup.) -/
def mockGetattr (c : MockLib) (n : String) : Option MockFuncPtr :=
  if c.fns.contains n then some mkMockFuncPtr else none

/-- testsuite.libs.CDLL.__init__ (libs.py lines 204 to 212): a covered
library name gets the mock class as handle; any other name falls through
to the real ctypes.CDLL constructor, kept abstract as the name. -/
def CDLL_init (n : String) : Sum MockLib String :=
  match lib_to_mock n with
  | some m => Sum.inl m
  | none => Sum.inr n

/-- testsuite.libs.CDLL.__getattr__ (libs.py lines 214 to 218): with a
mock handle, delegate to the mock library; the real-library branch calls
into ctypes and is outside the model. -/
def CDLL_getattr (h : Sum MockLib String) (n : String) : Option MockFuncPtr :=
  match h with
  | Sum.inl m => mockGetattr m n
  | Sum.inr _ => none

/-- Both calibration scalars of an ObisLaser are the same in two states. -/
def PreservesCal (a b : ObisState) : Prop :=
  b.minPower = a.minPower ∧ b.maxPower = a.maxPower

/-- Innocuous traces: appended under any held lock they change nothing
about the holdsAll check. -/
def Innocuous (xs : List Ev) : Prop :=
  ∀ (d : Nat) (ys : List Ev), 0 < d → holdsAll d (xs ++ ys) = holdsAll d ys

/-- A sample connection script for the ObisLaser constructor: simple OK
handshakes for the eight informational commands, then the two power
replies in watts, each followed by a handshake line. -/
def sampleInitConn : List String :=
  ["OK", "OK", "OK", "OK", "OK", "OK", "OK", "OK",
   "0.1", "OK", "0.001", "OK"]

lemma readline_eq (s : ObisState) :
    obis_readline s =
      (pyStrip (s.conn.headD ""),
       { s with conn :=
          if pyStrip (s.conn.headD "") = "OK" ∨
             pyPrefix 3 (pyStrip (s.conn.headD "")) = "ERR"
          then s.conn.tail else s.conn.tail.tail },
       if pyStrip (s.conn.headD "") = "OK" ∨
          pyPrefix 3 (pyStrip (s.conn.headD "")) = "ERR"
       then [Ev.rd] else [Ev.rd, Ev.rd]) := by
  unfold obis_readline serialRead
  by_cases h1 : pyStrip (s.conn.headD "") = "OK"
  · rw [if_pos h1, if_pos (Or.inl h1), if_pos (Or.inl h1)]
  · by_cases h2 : pyPrefix 3 (pyStrip (s.conn.headD "")) = "ERR"
    · rw [if_neg h1, if_pos h2, if_pos (Or.inr h2), if_pos (Or.inr h2)]
    · rw [if_neg h1, if_neg h2, if_neg (not_or_intro h1 h2),
        if_neg (not_or_intro h1 h2)]
      rfl

lemma serialOnly_readline (s : ObisState) :
    serialOnly (obis_readline s).2.2 = true := by
  rw [readline_eq]
  split <;> rfl

lemma serialOnly_write_read (c : String) (a : Option Rat) (s : ObisState) :
    serialOnly (obis_write_read c a s).2.2 = true := by
  show serialOnly (Ev.wr c a :: (obis_readline s).2.2) = true
  simp [serialOnly, serialOnly_readline]

lemma innocuous_of_serialOnly : ∀ xs, serialOnly xs = true → Innocuous xs := by
  intro xs
  induction xs with
  | nil => intro _ d ys _; simp
  | cons h t ih =>
    intro hs d ys hd
    cases h with
    | wr c a =>
      simp only [serialOnly] at hs
      simp only [List.cons_append, holdsAll, List.append_eq,
        ih hs d ys hd, decide_eq_true hd, Bool.true_and]
    | rd =>
      simp only [serialOnly] at hs
      simp only [List.cons_append, holdsAll, List.append_eq,
        ih hs d ys hd, decide_eq_true hd, Bool.true_and]
    | acq => simp [serialOnly] at hs
    | rel => simp [serialOnly] at hs

lemma innocuous_nil : Innocuous [] := by
  intro d ys _; simp

lemma innocuous_append {a b : List Ev} (ha : Innocuous a) (hb : Innocuous b) :
    Innocuous (a ++ b) := by
  intro d ys hd
  rw [List.append_assoc, ha d _ hd, hb d ys hd]

lemma innocuous_lockWrap {xs : List Ev} (h : Innocuous xs) :
    Innocuous (lockWrap xs) := by
  intro d ys hd
  show holdsAll d ((Ev.acq :: (xs ++ [Ev.rel])) ++ ys) = holdsAll d ys
  simp only [List.cons_append, holdsAll, List.append_eq]
  rw [List.append_assoc, h (d + 1) _ (by omega)]
  simp [holdsAll, hd]

lemma holdsAll_zero_lockWrap {xs : List Ev} (h : Innocuous xs) :
    holdsAll 0 (lockWrap xs) = true := by
  show holdsAll 0 (Ev.acq :: (xs ++ [Ev.rel])) = true
  simp only [holdsAll]
  rw [h 1 [Ev.rel] (by omega)]
  simp [holdsAll]

lemma innoc_write_read (c : String) (a : Option Rat) (s : ObisState) :
    Innocuous (obis_write_read c a s).2.2 :=
  innocuous_of_serialOnly _ (serialOnly_write_read c a s)

lemma innoc_get_is_on_body (s : ObisState) :
    Innocuous (obis_get_is_on_body s).2.2 := by
  simp only [obis_get_is_on_body]
  exact innoc_write_read _ _ _

lemma innoc_get_is_on (s : ObisState) : Innocuous (obis_get_is_on s).2.2 := by
  show Innocuous (lockWrap (obis_write_read "SOURce:AM:STATe?" none s).2.2)
  exact innocuous_lockWrap (innoc_write_read _ _ _)

lemma innoc_get_min_power_mw_body (s : ObisState) :
    Innocuous (obis_get_min_power_mw_body s).2.2 := by
  simp only [obis_get_min_power_mw_body]
  exact innoc_write_read _ _ _

lemma innoc_get_max_power_mw_body (s : ObisState) :
    Innocuous (obis_get_max_power_mw_body s).2.2 := by
  simp only [obis_get_max_power_mw_body]
  exact innoc_write_read _ _ _

lemma innoc_runStatus : ∀ (l : List (String × String)) (s : ObisState),
    Innocuous (runStatus l s).2.2 := by
  intro l
  induction l with
  | nil => intro s; exact innocuous_nil
  | cons hd tl ih =>
    intro s
    obtain ⟨c, m⟩ := hd
    show Innocuous ((obis_write_read c none s).2.2 ++
      (runStatus tl (obis_write_read c none s).2.1).2.2)
    exact innocuous_append (innoc_write_read _ _ _) (ih _)

lemma innoc_get_status (s : ObisState) : Innocuous (obis_get_status s).2.2 := by
  show Innocuous (lockWrap (runStatus statusCmds s).2.2)
  exact innocuous_lockWrap (innoc_runStatus statusCmds s)

lemma innoc_enable_body (s : ObisState) : Innocuous (obis_enable_body s).2.2 := by
  simp only [obis_enable_body]
  split
  · exact innocuous_append
      (innocuous_append
        (innocuous_append (innoc_write_read _ _ _) (innoc_write_read _ _ _))
        (innoc_write_read _ _ _))
      (innoc_get_is_on _)
  · exact innocuous_append
      (innocuous_append
        (innocuous_append
          (innocuous_append (innoc_write_read _ _ _) (innoc_write_read _ _ _))
          (innoc_write_read _ _ _))
        (innoc_get_is_on _))
      (innoc_get_status _)

lemma innoc_disable_body (s : ObisState) : Innocuous (obis_disable_body s).2.2 := by
  simp only [obis_disable_body]
  split
  · exact innocuous_append
      (innocuous_append (innoc_write_read _ _ _) (innoc_get_is_on _))
      (innoc_get_status _)
  · exact innocuous_append (innoc_write_read _ _ _) (innoc_get_is_on _)

lemma innoc_get_power_mw_priv_body (s : ObisState) :
    Innocuous (obis_get_power_mw_priv_body s).2.2 := by
  simp only [obis_get_power_mw_priv_body]
  split
  · exact innoc_get_is_on _
  · exact innocuous_append (innoc_get_is_on _) (innoc_write_read _ _ _)

lemma innoc_set_power_mw_body (mW : Rat) (s : ObisState) :
    Innocuous (obis_set_power_mw_body mW s).2.2 := by
  simp only [obis_set_power_mw_body]
  split
  · exact innocuous_nil
  · exact innoc_write_read _ _ _

lemma readline_min (s : ObisState) :
    (obis_readline s).2.1.minPower = s.minPower := by
  rw [readline_eq]

lemma readline_max (s : ObisState) :
    (obis_readline s).2.1.maxPower = s.maxPower := by
  rw [readline_eq]

lemma write_read_state (c : String) (a : Option Rat) (s : ObisState) :
    (obis_write_read c a s).2.1 = (obis_readline s).2.1 := rfl

lemma write_read_min (c : String) (a : Option Rat) (s : ObisState) :
    (obis_write_read c a s).2.1.minPower = s.minPower := by
  rw [write_read_state, readline_min]

lemma write_read_max (c : String) (a : Option Rat) (s : ObisState) :
    (obis_write_read c a s).2.1.maxPower = s.maxPower := by
  rw [write_read_state, readline_max]

lemma get_is_on_state (s : ObisState) :
    (obis_get_is_on s).2.1 = (obis_readline s).2.1 := rfl

lemma get_is_on_min (s : ObisState) :
    (obis_get_is_on s).2.1.minPower = s.minPower := by
  rw [get_is_on_state, readline_min]

lemma get_is_on_max (s : ObisState) :
    (obis_get_is_on s).2.1.maxPower = s.maxPower := by
  rw [get_is_on_state, readline_max]

lemma runStatus_min : ∀ (l : List (String × String)) (s : ObisState),
    (runStatus l s).2.1.minPower = s.minPower := by
  intro l
  induction l with
  | nil => intro s; rfl
  | cons hd tl ih =>
    intro s
    obtain ⟨c, m⟩ := hd
    show (runStatus tl (obis_write_read c none s).2.1).2.1.minPower = s.minPower
    rw [ih, write_read_min]

lemma runStatus_max : ∀ (l : List (String × String)) (s : ObisState),
    (runStatus l s).2.1.maxPower = s.maxPower := by
  intro l
  induction l with
  | nil => intro s; rfl
  | cons hd tl ih =>
    intro s
    obtain ⟨c, m⟩ := hd
    show (runStatus tl (obis_write_read c none s).2.1).2.1.maxPower = s.maxPower
    rw [ih, write_read_max]

lemma lock_comms_state {α : Type} (f : ObisState → α × ObisState × List Ev)
    (s : ObisState) : (lock_comms f s).2.1 = (f s).2.1 := rfl

lemma lock_comms_trace {α : Type} (f : ObisState → α × ObisState × List Ev)
    (s : ObisState) : (lock_comms f s).2.2 = lockWrap (f s).2.2 := rfl

lemma obis_get_status_def : obis_get_status = lock_comms obis_get_status_body := rfl

lemma obis_enable_def : obis_enable = lock_comms obis_enable_body := rfl

lemma obis_disable_def : obis_disable = lock_comms obis_disable_body := rfl

lemma obis_is_alive_def : obis_is_alive = lock_comms obis_is_alive_body := rfl

lemma obis_get_is_on_def : obis_get_is_on = lock_comms obis_get_is_on_body := rfl

lemma obis_get_min_power_mw_def :
    obis_get_min_power_mw = lock_comms obis_get_min_power_mw_body := rfl

lemma obis_get_max_power_mw_def :
    obis_get_max_power_mw = lock_comms obis_get_max_power_mw_body := rfl

lemma obis_get_power_mw_priv_def :
    obis_get_power_mw_priv = lock_comms obis_get_power_mw_priv_body := rfl

lemma obis_set_power_mw_def (mW : Rat) :
    obis_set_power_mw mW = lock_comms (obis_set_power_mw_body mW) := rfl

lemma obis_get_status_body_eq (s : ObisState) :
    obis_get_status_body s = runStatus statusCmds s := rfl

lemma get_status_min (s : ObisState) :
    (obis_get_status s).2.1.minPower = s.minPower := by
  rw [obis_get_status_def, lock_comms_state, obis_get_status_body_eq,
    runStatus_min]

lemma get_status_max (s : ObisState) :
    (obis_get_status s).2.1.maxPower = s.maxPower := by
  rw [obis_get_status_def, lock_comms_state, obis_get_status_body_eq,
    runStatus_max]

lemma enable_min (s : ObisState) : (obis_enable s).2.1.minPower = s.minPower := by
  rw [obis_enable_def, lock_comms_state]
  simp only [obis_enable_body]
  split <;> dsimp only <;>
    simp only [get_status_min, get_is_on_min, write_read_min]

lemma enable_max (s : ObisState) : (obis_enable s).2.1.maxPower = s.maxPower := by
  rw [obis_enable_def, lock_comms_state]
  simp only [obis_enable_body]
  split <;> dsimp only <;>
    simp only [get_status_max, get_is_on_max, write_read_max]

lemma disable_min (s : ObisState) : (obis_disable s).2.1.minPower = s.minPower := by
  rw [obis_disable_def, lock_comms_state]
  simp only [obis_disable_body]
  split <;> dsimp only <;>
    simp only [get_status_min, get_is_on_min, write_read_min]

lemma disable_max (s : ObisState) : (obis_disable s).2.1.maxPower = s.maxPower := by
  rw [obis_disable_def, lock_comms_state]
  simp only [obis_disable_body]
  split <;> dsimp only <;>
    simp only [get_status_max, get_is_on_max, write_read_max]

lemma obis_is_alive_body_eq (s : ObisState) :
    obis_is_alive_body s = obis_get_is_on s := rfl

lemma is_alive_min (s : ObisState) : (obis_is_alive s).2.1.minPower = s.minPower := by
  rw [obis_is_alive_def, lock_comms_state, obis_is_alive_body_eq, get_is_on_min]

lemma is_alive_max (s : ObisState) : (obis_is_alive s).2.1.maxPower = s.maxPower := by
  rw [obis_is_alive_def, lock_comms_state, obis_is_alive_body_eq, get_is_on_max]

lemma get_min_power_state (s : ObisState) :
    (obis_get_min_power_mw s).2.1 = (obis_readline s).2.1 := rfl

lemma get_max_power_state (s : ObisState) :
    (obis_get_max_power_mw s).2.1 = (obis_readline s).2.1 := rfl

lemma priv_min (s : ObisState) :
    (obis_get_power_mw_priv s).2.1.minPower = s.minPower := by
  rw [obis_get_power_mw_priv_def, lock_comms_state]
  simp only [obis_get_power_mw_priv_body]
  split <;> dsimp only <;> simp only [get_is_on_min, write_read_min]

lemma priv_max (s : ObisState) :
    (obis_get_power_mw_priv s).2.1.maxPower = s.maxPower := by
  rw [obis_get_power_mw_priv_def, lock_comms_state]
  simp only [obis_get_power_mw_priv_body]
  split <;> dsimp only <;> simp only [get_is_on_max, write_read_max]

lemma get_power_min (s : ObisState) :
    (obis_get_power_mw s).2.1.minPower = s.minPower := by
  simp only [obis_get_power_mw]
  split <;> dsimp only <;> simp only [get_is_on_min, priv_min]

lemma get_power_max (s : ObisState) :
    (obis_get_power_mw s).2.1.maxPower = s.maxPower := by
  simp only [obis_get_power_mw]
  split <;> dsimp only <;> simp only [get_is_on_max, priv_max]

lemma set_power_min (mW : Rat) (s : ObisState) :
    (obis_set_power_mw mW s).2.1.minPower = s.minPower := by
  rw [obis_set_power_mw_def, lock_comms_state]
  simp only [obis_set_power_mw_body]
  split <;> dsimp only <;> simp only [write_read_min]

lemma set_power_max (mW : Rat) (s : ObisState) :
    (obis_set_power_mw mW s).2.1.maxPower = s.maxPower := by
  rw [obis_set_power_mw_def, lock_comms_state]
  simp only [obis_set_power_mw_body]
  split <;> dsimp only <;> simp only [write_read_max]

/-- C1: for every line read from the OBIS serial connection,
ObisLaser._readline returns the response stripped of surrounding
whitespace; when the stripped response equals OK or starts with ERR it
is returned immediately (one line consumed, one read event), and
otherwise exactly one further line, the optional handshake
acknowledgement, is read from the connection and discarded before the
original response is returned (two lines consumed, two read events). -/
theorem obis_readline_claim : ∀ s : ObisState,
    (obis_readline s).1 = pyStrip (s.conn.headD "") ∧
    (obis_readline s).2.1.conn =
      (if pyStrip (s.conn.headD "") = "OK" ∨
          pyPrefix 3 (pyStrip (s.conn.headD "")) = "ERR"
       then s.conn.tail else s.conn.tail.tail) ∧
    (obis_readline s).2.2 =
      (if pyStrip (s.conn.headD "") = "OK" ∨
          pyPrefix 3 (pyStrip (s.conn.headD "")) = "ERR"
       then [Ev.rd] else [Ev.rd, Ev.rd]) := by
  intro s
  rw [readline_eq]
  exact ⟨rfl, rfl, rfl⟩

/-- C6: every decorated serial operation of ObisLaser (get_status,
enable, disable, is_alive, get_is_on, get_min_power_mw,
get_max_power_mw, the private power getter and setter) produces a trace
in which every serial write and read happens while the per-instance
communication lock is held, with balanced acquire and release, for every
connection script and request. -/
theorem obis_lock_serialization :
    ∀ (s : ObisState) (mW : Rat),
      holdsAll 0 (obis_get_status s).2.2 = true ∧
      holdsAll 0 (obis_enable s).2.2 = true ∧
      holdsAll 0 (obis_disable s).2.2 = true ∧
      holdsAll 0 (obis_is_alive s).2.2 = true ∧
      holdsAll 0 (obis_get_is_on s).2.2 = true ∧
      holdsAll 0 (obis_get_min_power_mw s).2.2 = true ∧
      holdsAll 0 (obis_get_max_power_mw s).2.2 = true ∧
      holdsAll 0 (obis_get_power_mw_priv s).2.2 = true ∧
      holdsAll 0 (obis_set_power_mw mW s).2.2 = true := by
  intro s mW
  refine ⟨?_, ?_, ?_, ?_, ?_, ?_, ?_, ?_, ?_⟩
  · rw [obis_get_status_def, lock_comms_trace, obis_get_status_body_eq]
    exact holdsAll_zero_lockWrap (innoc_runStatus statusCmds s)
  · rw [obis_enable_def, lock_comms_trace]
    exact holdsAll_zero_lockWrap (innoc_enable_body s)
  · rw [obis_disable_def, lock_comms_trace]
    exact holdsAll_zero_lockWrap (innoc_disable_body s)
  · rw [obis_is_alive_def, lock_comms_trace, obis_is_alive_body_eq]
    exact holdsAll_zero_lockWrap (innoc_get_is_on s)
  · rw [obis_get_is_on_def, lock_comms_trace]
    exact holdsAll_zero_lockWrap (innoc_get_is_on_body s)
  · rw [obis_get_min_power_mw_def, lock_comms_trace]
    exact holdsAll_zero_lockWrap (innoc_get_min_power_mw_body s)
  · rw [obis_get_max_power_mw_def, lock_comms_trace]
    exact holdsAll_zero_lockWrap (innoc_get_max_power_mw_body s)
  · rw [obis_get_power_mw_priv_def, lock_comms_trace]
    exact holdsAll_zero_lockWrap (innoc_get_power_mw_priv_body s)
  · rw [obis_set_power_mw_def, lock_comms_trace]
    exact holdsAll_zero_lockWrap (innoc_set_power_mw_body mW s)

/-- C4: the scalar calibration values of each device (the ObisLaser
minimum and maximum power, and the Alpao actuator count) are assigned
during the constructor, as the sample constructor runs show, and are
left unchanged by every subsequent operation: all the listed ObisLaser
operations preserve both power fields for every connection script, and
all the listed Alpao operations preserve the actuator count for every
oracle outcome. -/
theorem calibration_scalars_frame :
    (∀ (s : ObisState) (mW : Rat),
      PreservesCal s (obis_get_status s).2.1 ∧
      PreservesCal s (obis_enable s).2.1 ∧
      PreservesCal s (obis_disable s).2.1 ∧
      PreservesCal s (obis_get_is_on s).2.1 ∧
      PreservesCal s (obis_get_min_power_mw s).2.1 ∧
      PreservesCal s (obis_get_max_power_mw s).2.1 ∧
      PreservesCal s (obis_get_power_mw s).2.1 ∧
      PreservesCal s (obis_get_power_mw_priv s).2.1 ∧
      PreservesCal s (obis_set_power_mw mW s).2.1) ∧
    (obis_init sampleInitConn).map Prod.fst =
      some { minPower := (pyFloat "0.001").getD 0 * 1000,
             maxPower := (pyFloat "0.1").getD 0 * 1000, conn := [] } ∧
    (∀ (st : AlpaoState) (v : Bool),
      (alpao_apply_pattern v st).2.1.nActuators = st.nActuators) ∧
    (∀ (st : AlpaoState) (t : TriggerType) (a b : Int) (c : String) (d : Int),
      (alpao_set_trigger_type t a b c d st).2.1.nActuators = st.nActuators) ∧
    (∀ (st : AlpaoState) (ps : List (List Rat)) (v : Bool) (a b : Int)
      (c : String) (d : Int),
      (alpao_queue_patterns ps v a b c d st).2.nActuators = st.nActuators) ∧
    (∀ (st : AlpaoState) (a b : Int) (c : String) (d : Int),
      (alpao_zero a b c d st).2.nActuators = st.nActuators) ∧
    alpaoInit false asdkFAILURE "" 0 asdkSUCCESS asdkFAILURE "" 0 69
        TriggerType.SOFTWARE =
      Except.ok { nActuators := 69, triggerType := TriggerType.SOFTWARE,
                  queued := [] } := by
  refine ⟨?_, ?_, ?_, ?_, ?_, ?_, ?_⟩
  · intro s mW
    exact ⟨⟨get_status_min s, get_status_max s⟩,
      ⟨enable_min s, enable_max s⟩,
      ⟨disable_min s, disable_max s⟩,
      ⟨get_is_on_min s, get_is_on_max s⟩,
      ⟨by rw [get_min_power_state, readline_min],
       by rw [get_min_power_state, readline_max]⟩,
      ⟨by rw [get_max_power_state, readline_min],
       by rw [get_max_power_state, readline_max]⟩,
      ⟨get_power_min s, get_power_max s⟩,
      ⟨priv_min s, priv_max s⟩,
      ⟨set_power_min mW s, set_power_max mW s⟩⟩
  · rfl
  · intro st v
    cases v <;> rfl
  · intro st t a b c d
    simp only [alpao_set_trigger_type]
    cases triggerToAsdk t
    · rfl
    · cases raise_if_error a b c d <;> rfl
  · intro st ps v a b c d
    simp only [alpao_queue_patterns]
    split
    · rfl
    · split
      · cases raise_if_error a b c d <;> rfl
      · rfl
  · intro st a b c d
    simp only [alpao_zero]
    cases raise_if_error a b c d <;> rfl
  · rfl

/-- C2: the claim describes the documented intent of _find_error_str
and _raise_if_error, but the code cannot raise an exception carrying
the SDK error string: when a vendor call fails (status FAILURE) and the
error fetch succeeds, line 75 of alpao.py concatenates a str onto the
bytes value of the buffer and Python 3 raises TypeError there, so a
TypeError propagates instead of exception_cls with the vendor message
(first conjunct, at the CannotOpenCfg failing input); when the fetch
fails, the empty string suppresses any exception (second conjunct);
only the SUCCESS path behaves as claimed (third conjunct); and on no
oracle outcome whatsoever is an exception carrying a fetched SDK error
string raised (last conjunct). -/
theorem alpao_raise_if_error_bug :
    raise_if_error asdkFAILURE asdkSUCCESS "CannotOpenCfg" 7 =
      some (AlpaoRaise.typeError "TypeError: can\x27t concat str to bytes") ∧
    raise_if_error asdkFAILURE asdkFAILURE "" 0 = none ∧
    raise_if_error asdkSUCCESS asdkSUCCESS "CannotOpenCfg" 7 = none ∧
    (∀ (status gls : Int) (buf : String) (ec : Int),
      raisesSdkErrorString status gls buf ec = false) := by
  refine ⟨rfl, rfl, rfl, ?_⟩
  intro status gls buf ec
  unfold raisesSdkErrorString raise_if_error
  by_cases h1 : status ≠ asdkSUCCESS
  · rw [if_pos h1]
    unfold find_error_str
    by_cases h2 : gls = asdkSUCCESS
    · rw [if_pos h2]
    · rw [if_neg h2]
      rfl
  · rw [if_neg h1]

/-- C3: BMCDeformableMirror.apply_pattern cannot pass the pattern to
BMC.SetArray as claimed: on any pattern that passes validation the code
raises NameError, because line 47 of bmc.py references the undefined
name values (and the import of the BMC wrapper module is commented
out), so no SDK call and no status check ever happens. -/
theorem bmc_apply_pattern_bug :
    bmc_apply_pattern true =
      Except.error "NameError: name \x27values\x27 is not defined" := rfl

/-- C10: the module level _normalize_patterns function does compute the
claimed affine map, sending every value x to 2 times x minus 1 (zero to
minus one, one to one, one half to zero); but apply_pattern calls it
with a single argument while its signature is (self, patterns), so every
validated pattern raises TypeError and nothing is ever sent to the SDK
(the recorded SDK call list is always empty). -/
theorem alpao_apply_pattern_bug :
    (∀ p : List Rat, alpao_normalize p = p.map (fun x => 2 * x - 1)) ∧
    alpao_normalize [0, 1, 1/2] = [-1, 1, 0] ∧
    (∀ (v : Bool) (st : AlpaoState), (alpao_apply_pattern v st).2.2 = []) ∧
    (∀ st : AlpaoState, (alpao_apply_pattern true st).1 =
      Except.error "TypeError: _normalize_patterns() missing 1 required positional argument: \x27patterns\x27") := by
  refine ⟨?_, ?_, ?_, ?_⟩
  · intro p
    unfold alpao_normalize
    congr 1
    funext x
    ring
  · norm_num [alpao_normalize]
  · intro v st
    cases v <;> rfl
  · intro st
    rfl

/-- C5: set_trigger_type maps SOFTWARE to 0, RISING_EDGE to 1 and
FALLING_EDGE to 2 and passes the mapped value to asdk.Set under the
TriggerIn key; any trigger type missing from the dictionary raises an
exception naming the type without any SDK call being made. -/
theorem alpao_set_trigger_type_claim :
    triggerToAsdk TriggerType.SOFTWARE = some 0 ∧
    triggerToAsdk TriggerType.RISING_EDGE = some 1 ∧
    triggerToAsdk TriggerType.FALLING_EDGE = some 2 ∧
    (∀ (t : TriggerType) (v : Int) (a b : Int) (c : String) (d : Int)
      (st : AlpaoState), triggerToAsdk t = some v →
      (alpao_set_trigger_type t a b c d st).2.2 = [("TriggerIn", v)]) ∧
    (∀ (t : TriggerType) (a b : Int) (c : String) (d : Int)
      (st : AlpaoState), triggerToAsdk t = none →
      (alpao_set_trigger_type t a b c d st).1 =
        Except.error ("unsupported trigger of type \x27" ++ t.tname ++
          "\x27 for Alpao Mirrors") ∧
      (alpao_set_trigger_type t a b c d st).2.2 = []) := by
  refine ⟨rfl, rfl, rfl, ?_, ?_⟩
  · intro t v a b c d st h
    unfold alpao_set_trigger_type
    rw [h]
    cases raise_if_error a b c d <;> rfl
  · intro t a b c d st h
    unfold alpao_set_trigger_type
    rw [h]
    exact ⟨rfl, rfl⟩

/-- C5 witness: the SOFTWARE mapping leads to the TriggerIn SDK call
with value 0, and the unmapped PULSE type makes no SDK call. -/
theorem alpao_set_trigger_type_claim_witness :
    (alpao_set_trigger_type TriggerType.SOFTWARE 0 0 "" 0
      ⟨1, TriggerType.SOFTWARE, []⟩).2.2 = [("TriggerIn", 0)] ∧
    (alpao_set_trigger_type TriggerType.PULSE 0 0 "" 0
      ⟨1, TriggerType.SOFTWARE, []⟩).2.2 = [] := by
  constructor
  · exact alpao_set_trigger_type_claim.2.2.2.1 TriggerType.SOFTWARE 0 0 0 "" 0
      ⟨1, TriggerType.SOFTWARE, []⟩ rfl
  · exact (alpao_set_trigger_type_claim.2.2.2.2 TriggerType.PULSE 0 0 "" 0
      ⟨1, TriggerType.SOFTWARE, []⟩ rfl).2

/-- C7: for every library name listed by some mock class, constructing
the replacement CDLL yields the mock handle for that class; attribute
lookup through the mock fallback yields a callable returning zero for
every name in the functions list of the class and an AttributeError
(none) for every other name; a library name not covered by any mock
class falls through to the real ctypes.CDLL constructor. -/
theorem testsuite_cdll_mock_claim :
    (∀ cls, cls ∈ allMockLibs → ∀ ln, ln ∈ cls.libs →
      CDLL_init ln = Sum.inl cls) ∧
    (∀ (cls : MockLib) (n : String),
      (n ∈ cls.fns → CDLL_getattr (Sum.inl cls) n = some mkMockFuncPtr ∧
        MockFuncPtr.call mkMockFuncPtr = 0) ∧
      (n ∉ cls.fns → CDLL_getattr (Sum.inl cls) n = none)) ∧
    (∀ n : String, lib_to_mock n = none → CDLL_init n = Sum.inr n) := by
  refine ⟨by decide, ?_, ?_⟩
  · intro cls n
    constructor
    · intro h
      exact ⟨by simp [CDLL_getattr, mockGetattr, h], rfl⟩
    · intro h
      simp [CDLL_getattr, mockGetattr, h]
  · intro n h
    simp [CDLL_init, h]

/-- C7 witness: the name ASDK is covered by the asdk mock, where
asdkInit is mocked (a callable returning zero) and an unknown symbol
raises; an unknown library name falls through to the real loader. -/
theorem testsuite_cdll_mock_claim_witness :
    CDLL_init "ASDK" = Sum.inl mockLibasdk ∧
    CDLL_getattr (Sum.inl mockLibasdk) "asdkInit" = some mkMockFuncPtr ∧
    MockFuncPtr.call mkMockFuncPtr = 0 ∧
    CDLL_getattr (Sum.inl mockLibasdk) "nosuchsymbol" = none ∧
    CDLL_init "libother.so" = Sum.inr "libother.so" := by
  refine ⟨?_, ?_, ?_, ?_, ?_⟩
  · exact testsuite_cdll_mock_claim.1 mockLibasdk (by decide) "ASDK" (by decide)
  · exact ((testsuite_cdll_mock_claim.2.1 mockLibasdk "asdkInit").1 (by decide)).1
  · exact ((testsuite_cdll_mock_claim.2.1 mockLibasdk "asdkInit").1 (by decide)).2
  · exact (testsuite_cdll_mock_claim.2.1 mockLibasdk "nosuchsymbol").2 (by decide)
  · exact testsuite_cdll_mock_claim.2.2 "libother.so" (by decide)

lemma lock_comms_fst {α : Type} (f : ObisState → α × ObisState × List Ev)
    (s : ObisState) : (lock_comms f s).1 = (f s).1 := rfl

lemma lock_comms_eq {α : Type} {f : ObisState → α × ObisState × List Ev}
    {s : ObisState} {a : α} {st : ObisState} {ev : List Ev}
    (h : f s = (a, st, ev)) : lock_comms f s = (a, st, lockWrap ev) := by
  unfold lock_comms
  rw [h]

lemma readline_fst (s : ObisState) :
    (obis_readline s).1 = pyStrip (s.conn.headD "") := by
  rw [readline_eq]

lemma readline_normal (s : ObisState)
    (h : ¬(pyStrip (s.conn.headD "") = "OK" ∨
           pyPrefix 3 (pyStrip (s.conn.headD "")) = "ERR")) :
    obis_readline s = (pyStrip (s.conn.headD ""),
      { s with conn := s.conn.tail.tail }, [Ev.rd, Ev.rd]) := by
  rw [readline_eq, if_neg h, if_neg h]

lemma get_is_on_on (s : ObisState) (h : pyStrip (s.conn.headD "") = "ON") :
    obis_get_is_on s = (true, { s with conn := s.conn.tail.tail },
      lockWrap [Ev.wr "SOURce:AM:STATe?" none, Ev.rd, Ev.rd]) := by
  rw [obis_get_is_on_def]
  apply lock_comms_eq
  have hn : ¬(pyStrip (s.conn.headD "") = "OK" ∨
      pyPrefix 3 (pyStrip (s.conn.headD "")) = "ERR") := by
    rw [h]; decide
  unfold obis_get_is_on_body obis_write_read
  dsimp only
  rw [readline_normal s hn, h]
  rfl

lemma get_is_on_fst_false (s : ObisState)
    (h : pyStrip (s.conn.headD "") ≠ "ON") :
    (obis_get_is_on s).1 = false := by
  rw [obis_get_is_on_def, lock_comms_fst]
  show decide ((obis_write_read "SOURce:AM:STATe?" none s).1 = "ON") = false
  rw [show (obis_write_read "SOURce:AM:STATe?" none s).1 = (obis_readline s).1
    from rfl, readline_fst]
  exact decide_eq_false h

lemma get_is_on_trace (s : ObisState) :
    (obis_get_is_on s).2.2 =
      lockWrap (Ev.wr "SOURce:AM:STATe?" none :: (obis_readline s).2.2) := by
  rw [obis_get_is_on_def, lock_comms_trace]
  rfl

lemma writesOf_readline (s : ObisState) :
    writesOf (obis_readline s).2.2 = [] := by
  rw [readline_eq]
  split <;> rfl

lemma writesOf_lockWrap (l : List Ev) :
    writesOf (lockWrap l) = writesOf l := by
  simp [lockWrap, writesOf, List.filterMap_cons, List.filterMap_append]

lemma get_power_off (s : ObisState) (h : (obis_get_is_on s).1 = false) :
    obis_get_power_mw s =
      (some 0, (obis_get_is_on s).2.1, (obis_get_is_on s).2.2) := by
  unfold obis_get_power_mw
  simp [h]

lemma get_power_on_fst (s : ObisState) (h : (obis_get_is_on s).1 = true) :
    (obis_get_power_mw s).1 =
      (obis_get_power_mw_priv (obis_get_is_on s).2.1).1 := by
  unfold obis_get_power_mw
  simp [h]

lemma priv_on_fst (s : ObisState) (h : pyStrip (s.conn.headD "") = "ON") :
    (obis_get_power_mw_priv s).1 =
      (pyFloat (pyStrip (s.conn.tail.tail.headD ""))).map (fun x => x * 1000) := by
  rw [obis_get_power_mw_priv_def, lock_comms_fst]
  unfold obis_get_power_mw_priv_body
  rw [get_is_on_on s h]
  dsimp only
  simp only [Bool.not_true, Bool.false_eq_true, if_false]
  unfold obis_write_read
  dsimp only
  rw [readline_fst]

lemma writesOf_cons_wr (c : String) (a : Option Rat) (l : List Ev) :
    writesOf (Ev.wr c a :: l) = c :: writesOf l := by
  simp [writesOf]

/-- C8: get_power_mw returns zero whenever the laser reports it is not
emitting (the state query reply is not ON), and in that case never
writes the power query to the device; when the laser reports ON (both
on the outer check and on the inner check repeated by the private
getter) it returns the reported power level converted from watts to
milliwatts.  The connection script supplies the state reply, its
handshake, the repeated state reply, its handshake, and the power
reply. -/
theorem obis_get_power_claim :
    ∀ (mn mx : Rat) (a b c d e : String) (rest : List String),
      (pyStrip a ≠ "ON" →
        (obis_get_power_mw ⟨mn, mx, a :: b :: c :: d :: e :: rest⟩).1 = some 0 ∧
        "SOURce:POWer:LEVel?" ∉ writesOf
          (obis_get_power_mw ⟨mn, mx, a :: b :: c :: d :: e :: rest⟩).2.2) ∧
      (pyStrip a = "ON" → pyStrip c = "ON" →
        (obis_get_power_mw ⟨mn, mx, a :: b :: c :: d :: e :: rest⟩).1 =
          (pyFloat (pyStrip e)).map (fun x => x * 1000)) := by
  intro mn mx a b c d e rest
  constructor
  · intro h
    have hf : (obis_get_is_on ⟨mn, mx, a :: b :: c :: d :: e :: rest⟩).1 = false :=
      get_is_on_fst_false _ h
    rw [get_power_off _ hf]
    refine ⟨rfl, ?_⟩
    dsimp only
    rw [get_is_on_trace, writesOf_lockWrap, writesOf_cons_wr, writesOf_readline]
    decide
  · intro h1 h2
    have ht : (obis_get_is_on ⟨mn, mx, a :: b :: c :: d :: e :: rest⟩).1 = true := by
      rw [get_is_on_on ⟨mn, mx, a :: b :: c :: d :: e :: rest⟩ h1]
    rw [get_power_on_fst _ ht,
      get_is_on_on ⟨mn, mx, a :: b :: c :: d :: e :: rest⟩ h1]
    dsimp only
    simp only [List.tail_cons]
    rw [priv_on_fst ⟨mn, mx, c :: d :: e :: rest⟩ h2]
    rfl

/-- C8 witness: with the laser reporting OFF the result is zero; with
the laser reporting ON twice and a power reply the result is the parsed
reply times one thousand. -/
theorem obis_get_power_claim_witness :
    (obis_get_power_mw ⟨0, 100, ["OFF", "x", "y", "z", "w"]⟩).1 = some 0 ∧
    (obis_get_power_mw ⟨0, 100, ["ON", "hs1", "ON", "hs2", "0.05"]⟩).1 =
      (pyFloat (pyStrip "0.05")).map (fun x => x * 1000) := by
  constructor
  · exact ((obis_get_power_claim 0 100 "OFF" "x" "y" "z" "w" []).1 (by decide)).1
  · exact (obis_get_power_claim 0 100 "ON" "hs1" "ON" "hs2" "0.05" []).2
      (by decide) (by decide)

lemma set_power_body_high (mW : Rat) (s : ObisState) (h : mW > s.maxPower) :
    obis_set_power_mw_body mW s = (none, s, []) := by
  unfold obis_set_power_mw_body
  rw [if_pos h]

/-- C9: a power request strictly above the cached maximum returns at
once: no command is written (the trace holds only the lock acquire and
release), the connection is untouched and None is returned, silently
dropping the request; a request at or below the maximum writes the
amplitude command carrying the value converted to watts, the request
divided by one thousand. -/
theorem obis_set_power_claim : ∀ (s : ObisState) (mW : Rat),
    (mW > s.maxPower → obis_set_power_mw mW s = (none, s, lockWrap [])) ∧
    (mW ≤ s.maxPower →
      Ev.wr "SOURce:POWer:LEVel:IMMediate:AMPLitude" (some (mW / 1000)) ∈
        (obis_set_power_mw mW s).2.2) := by
  intro s mW
  constructor
  · intro h
    rw [obis_set_power_mw_def]
    exact lock_comms_eq (set_power_body_high mW s h)
  · intro h
    rw [obis_set_power_mw_def, lock_comms_trace]
    have hb : (obis_set_power_mw_body mW s).2.2 =
        Ev.wr "SOURce:POWer:LEVel:IMMediate:AMPLitude" (some (mW / 1000)) ::
          (obis_readline s).2.2 := by
      unfold obis_set_power_mw_body
      rw [if_neg (not_lt.mpr h)]
      rfl
    rw [hb]
    simp [lockWrap]

/-- C9 witness: with a cached maximum of 100 mW, a request of 200 mW is
dropped with no write, and a request of 50 mW writes the amplitude
command carrying 50 divided by 1000 watts. -/
theorem obis_set_power_claim_witness :
    obis_set_power_mw 200 ⟨0, 100, ["OK"]⟩ =
      (none, ⟨0, 100, ["OK"]⟩, lockWrap []) ∧
    Ev.wr "SOURce:POWer:LEVel:IMMediate:AMPLitude" (some (50 / 1000)) ∈
      (obis_set_power_mw 50 ⟨0, 100, ["OK"]⟩).2.2 := by
  constructor
  · exact (obis_set_power_claim ⟨0, 100, ["OK"]⟩ 200).1 (by norm_num)
  · exact (obis_set_power_claim ⟨0, 100, ["OK"]⟩ 50).2 (by norm_num)
